import Mathlib

/-!
Shallow embedding of the fsm-px signature detection and correlation engine
(src/config.rs, src/signature_detector.rs, src/main.rs, src/ebpf_processor.rs).

Modelling conventions:
- bytes are `Nat` values reduced mod 256 where decoded;
- Rust `f32` arithmetic in the energy computations is modelled exactly over `ℚ`
  (no rounding); the `sqrt`-based comparison `rms > threshold` of
  `check_energy_threshold` is encoded by the algebraically equivalent
  comparison on squares (`threshold < 0 ∨ (threshold*32768)^2 < energy/n`),
  which agrees with the real-number semantics for every threshold since
  `rms ≥ 0`;
- `u32`/`u64` arithmetic is `Nat` with explicit `% 2^32` where the source can
  wrap; `u64` subtraction, which panics on underflow in debug builds, is
  modelled as `Option Nat` (`none` = underflow);
- the external collaborators (the `regex` crate, lossy UTF-8 decoding from
  `std`) are passed in as an explicit environment of functions; the external
  `xxhash_rust` streaming hasher is modelled by taking the stream of values
  fed to it as the digest itself (xxh3 is a deterministic function of its
  input stream, so two digests are equal exactly when the fed streams are);
- `Instant::now()` is an explicit `now : Nat` argument.
-/

/-- Voice activity detection mode (src/config.rs `VadMode`). -/
inductive VadMode where
  | Energy : VadMode
  | ZeroCrossing : VadMode
  | Spectral : VadMode
  | ML : String → VadMode
deriving DecidableEq

/-- Audio detection criteria (src/config.rs `AudioCriteria`).
The threshold, an `f32` in the source, is modelled over `ℚ`. -/
structure AudioCriteria where
  min_duration_ms : Nat
  energy_threshold : ℚ
  vad_mode : VadMode
  frequency_range : Option (ℚ × ℚ)

/-- Signature rules (src/config.rs `SignatureRules`). -/
structure SignatureRules where
  stream_filter : String
  audio_criteria : AudioCriteria
  sampling_rate : Nat

/-- Identifier extraction pattern (src/config.rs `IdPattern`).
`value_offset` is an `i32` in the source, hence `Int`. -/
structure IdPattern where
  pattern : String
  id_type : String
  value_offset : Int
  value_length : Nat

/-- Protocol selector (src/config.rs `ProtocolType`), carried in the config
but not consulted by the detector logic under verification. -/
inductive ProtocolType where
  | RTP : ProtocolType
  | JsonEnvelope : String → ProtocolType
  | Custom : String → ProtocolType

/-- Metadata extraction configuration (src/config.rs `MetadataExtraction`). -/
structure MetadataExtraction where
  header_offset : Nat
  id_patterns : List IdPattern
  protocol : ProtocolType

/-- Correlation bounds (src/config.rs `CorrelationConfig`). -/
structure CorrelationConfig where
  signature_ttl_seconds : Nat
  max_active_signatures : Nat
  grouping_key : String

/-- Per-measurement configuration (src/config.rs `MeasurementConfig`). -/
structure MeasurementConfig where
  name : String
  enabled : Bool
  signature_rules : SignatureRules
  metadata_extraction : MetadataExtraction
  correlation : CorrelationConfig

/-- Decodes two bytes as `i16::from_le_bytes`: the little-endian
two's-complement 16-bit value, in `[-32768, 32767]`. -/
def toI16 (lo hi : Nat) : Int :=
  let v : Nat := lo % 256 + 256 * (hi % 256)
  if v < 32768 then (v : Int) else (v : Int) - 65536

/-- Decodes a chunk into its 16-bit samples: the source loops
`for i in (0..chunk.len()).step_by(2)` guarded by `i + 1 < chunk.len()`,
so consecutive byte pairs are decoded and a trailing odd byte is dropped. -/
def decodeSamples : List Nat → List Int
  | b0 :: b1 :: rest => toI16 b0 b1 :: decodeSamples rest
  | _ => []

/-- Total sample count of a window as computed by `check_energy_threshold`:
the sum over chunks of `chunk.len() / 2` (integer division). -/
def total_samples (buffer : List (List Nat)) : Nat :=
  (buffer.map (fun c => c.length / 2)).sum

/-- Energy contribution of one chunk in `check_energy_threshold`:
the sum of squared decoded samples. -/
def chunk_sq_energy (c : List Nat) : ℚ :=
  ((decodeSamples c).map (fun s : Int => (s : ℚ) ^ 2)).sum

/-- Models `check_energy_threshold` (src/signature_detector.rs lines 103-127):
guard on zero total samples, else compare
`rms = sqrt(energy / total_samples) / 32768` against the threshold with
strict `>`. The comparison is encoded on squares: for every threshold,
`rms > t` holds over the reals iff `t < 0 ∨ (t * 32768)^2 < energy / n`. -/
def check_energy_threshold (threshold : ℚ) (buffer : List (List Nat)) : Bool :=
  if total_samples buffer = 0 then false
  else
    let energy : ℚ := (buffer.map chunk_sq_energy).sum
    decide (threshold < 0 ∨ (threshold * 32768) ^ 2 < energy / (total_samples buffer : ℚ))

/-- One step of the zero-crossing loop (src/signature_detector.rs lines
134-145): state is `(prev_sign, crossings)`; the sign of the current sample
is `signum`, a crossing is counted when the previous sign is nonzero and
differs from the current sign, and `prev_sign` is then set to the current
sign unconditionally (a zero sample resets it to 0). -/
def zc_step (st : Int × Nat) (sample : Int) : Int × Nat :=
  let sign : Int := if 0 < sample then 1 else if sample < 0 then -1 else 0
  (sign, if st.1 ≠ 0 ∧ sign ≠ st.1 then st.2 + 1 else st.2)

/-- Zero-crossing state after folding the whole window, chunk by chunk,
carrying `(prev_sign, crossings)` across chunk boundaries as the source does. -/
def crossings_count (buffer : List (List Nat)) : Int × Nat :=
  buffer.foldl (fun st c => (decodeSamples c).foldl zc_step st) (0, 0)

/-- Models `check_zero_crossing_rate` (src/signature_detector.rs lines
129-150): worthy iff the crossing count exceeds 50. -/
def check_zero_crossing_rate (buffer : List (List Nat)) : Bool :=
  decide (50 < (crossings_count buffer).2)

/-- Models `chunk_energy` (src/signature_detector.rs lines 182-191): mean
absolute sample amplitude, dividing by `chunk.len() as f32 / 2.0` (real
halving, not integer division). The `f32` arithmetic is modelled over `ℚ`;
for the empty chunk the source computes `0.0/0.0 = NaN` while `ℚ` gives 0,
which does not affect any claim (the digest stays deterministic either way). -/
def chunk_energy (c : List Nat) : ℚ :=
  ((decodeSamples c).map (fun s : Int => |(s : ℚ)|)).sum / ((c.length : ℚ) / 2)

/-- Audio signature (src/signature_detector.rs `AudioSignature`). The `hash`
field models the xxh3 digest by the stream of per-chunk energies fed to the
streaming hasher (see file header). -/
structure AudioSignature where
  hash : List ℚ
  duration_ms : Nat
deriving DecidableEq

/-- Packet metadata (src/signature_detector.rs `PacketMetadata`): the HashMap
is modelled as an association list with unique keys maintained by insertion. -/
structure PacketMetadata where
  ids : List (String × String)
deriving DecidableEq

/-- Signature event (src/signature_detector.rs `SignatureEvent`); the
`Instant` timestamp is the `now` value supplied to `process_packet`. -/
structure SignatureEvent where
  signature : AudioSignature
  metadata : PacketMetadata
  timestamp : Nat
  measurement_name : String
deriving DecidableEq

/-- Detector state (src/signature_detector.rs `SignatureDetector`): the
VecDeque audio buffer is a list whose head is the oldest chunk, and the `u32`
packet counter is a `Nat` reduced mod `2^32` on increment. -/
structure SignatureDetector where
  config : MeasurementConfig
  audio_buffer : List (List Nat)
  packet_counter : Nat

/-- Models `SignatureDetector::new`. -/
def SignatureDetector.new (config : MeasurementConfig) : SignatureDetector :=
  { config := config, audio_buffer := [], packet_counter := 0 }

/-- Models `generate_signature` (src/signature_detector.rs lines 163-180):
the hasher is fed the per-chunk energies in window order, and
`duration_ms = (buffer.len() * 20) as u32`. -/
def generate_signature (s : SignatureDetector) : AudioSignature :=
  { hash := s.audio_buffer.map chunk_energy
    duration_ms := (s.audio_buffer.length * 20) % 4294967296 }

/-- Models `is_signature_worthy` (src/signature_detector.rs lines 93-101):
Spectral and ML are TODO stubs returning false in the source. -/
def is_signature_worthy (s : SignatureDetector) : Bool :=
  match s.config.signature_rules.audio_criteria.vad_mode with
  | VadMode.Energy =>
      check_energy_threshold s.config.signature_rules.audio_criteria.energy_threshold s.audio_buffer
  | VadMode.ZeroCrossing => check_zero_crossing_rate s.audio_buffer
  | VadMode.Spectral => false
  | VadMode.ML _ => false

/-- Models `find_bytes` (src/signature_detector.rs lines 193-197): the source
is an explicit TODO stub that always returns `None` (its comment says a real
implementation would parse the hex pattern). -/
def find_bytes (haystack : List Nat) (pat : String) : Option Nat :=
  none

/-- Environment of external collaborators used by metadata extraction:
`utf8_lossy` models `String::from_utf8_lossy` from std, and
`regex_capture1` models compiling `pattern` with the `regex` crate and taking
capture group 1 over the lossy-decoded byte suffix. Both are outside this
repository. -/
structure Env where
  utf8_lossy : List Nat → String
  regex_capture1 : String → List Nat → Option String

/-- Inserts into the id map with HashMap overwrite semantics. -/
def insertId : List (String × String) → String → String → List (String × String)
  | [], k, v => [(k, v)]
  | (k0, v0) :: rest, k, v =>
      if k0 = k then (k, v) :: rest else (k0, v0) :: insertId rest k v

/-- Models the `as usize` cast of the `i32` `value_offset`: two's-complement
reinterpretation into the 64-bit unsigned range. -/
def usize_of_i32 (o : Int) : Nat := (o % (18446744073709551616 : Int)).toNat

/-- Models `extract_metadata` (src/signature_detector.rs lines 53-91):
return empty metadata when the payload does not extend past `header_offset`;
otherwise try each id pattern in order, taking the binary branch when the
pattern text starts with a literal backslash-x, else the regex branch.
(Rust `str::starts_with` is modelled on the character sequence of the
pattern, which is what it checks.) -/
def extract_metadata (env : Env) (cfg : MeasurementConfig) (payload : List Nat) : PacketMetadata :=
  let envelope_start := cfg.metadata_extraction.header_offset
  if payload.length ≤ envelope_start then { ids := [] }
  else
    { ids := cfg.metadata_extraction.id_patterns.foldl (fun ids pat =>
        if List.isPrefixOf "\\x".data pat.pattern.data then
          match find_bytes payload pat.pattern with
          | some pos =>
              let id_start := (pos + usize_of_i32 pat.value_offset) % 18446744073709551616
              let id_end := id_start + pat.value_length
              if id_end ≤ payload.length then
                insertId ids pat.id_type
                  (env.utf8_lossy ((payload.drop id_start).take pat.value_length))
              else ids
          | none => ids
        else
          match env.regex_capture1 pat.pattern (payload.drop envelope_start) with
          | some v => insertId ids pat.id_type v
          | none => ids) [] }

/-- Models `process_packet` (src/signature_detector.rs lines 21-51):
increment the `u32` counter; skip entirely unless the counter is an exact
multiple of `sampling_rate`; otherwise extract metadata, push the payload
into the window (evicting the oldest past 50 chunks), run the gate, and emit
an event when worthy. (With `sampling_rate = 0` the Rust `%` panics; the
model follows the Lean convention `n % 0 = n`, and every theorem touching
the sampling check assumes a nonzero rate.) -/
def process_packet (env : Env) (now : Nat) (s : SignatureDetector) (payload : List Nat) :
    Option SignatureEvent × SignatureDetector :=
  let counter := (s.packet_counter + 1) % 4294967296
  if counter % s.config.signature_rules.sampling_rate ≠ 0 then
    (none, { s with packet_counter := counter })
  else
    let metadata := extract_metadata env s.config payload
    let buf0 := s.audio_buffer ++ [payload]
    let buf := if 50 < buf0.length then buf0.tail else buf0
    let s2 : SignatureDetector := { s with packet_counter := counter, audio_buffer := buf }
    if is_signature_worthy s2 then
      (some { signature := generate_signature s2, metadata := metadata,
              timestamp := now, measurement_name := s.config.name }, s2)
    else (none, s2)

/-- Feeds a list of payloads through the detector in order, collecting the
per-packet results (the body of `run_measurement` in src/main.rs). -/
def runPackets (env : Env) (now : Nat) (s : SignatureDetector) :
    List (List Nat) → List (Option SignatureEvent) × SignatureDetector
  | [] => ([], s)
  | p :: rest =>
      let r := process_packet env now s p
      let q := runPackets env now r.2 rest
      (r.1 :: q.1, q.2)

/-- Store of active signatures in `run_signature_matcher` (src/main.rs line
76): a `DashMap<u64, SignatureEvent>` modelled as an association list with
unique keys (head = first inserted among surviving entries). -/
abbrev SigStore := List (Nat × SignatureEvent)

/-- Models `DashMap::insert` as used at src/main.rs line 82: overwrite the
value when the key is present, otherwise append a new entry. No capacity
check of any kind is performed in the source. -/
def storeInsert : SigStore → Nat → SignatureEvent → SigStore
  | [], h, ev => [(h, ev)]
  | (k, v) :: rest, h, ev =>
      if k = h then (h, ev) :: rest else (k, v) :: storeInsert rest h ev

/-- Models `DashMap::remove` as used at src/main.rs line 105: atomically
remove and return the entry for the key when present. -/
def storeRemove : SigStore → Nat → Option SignatureEvent × SigStore
  | [], _ => (none, [])
  | (k, v) :: rest, h =>
      if k = h then (some v, rest)
      else
        let r := storeRemove rest h
        (r.1, (k, v) :: r.2)

/-- Keys of the store. -/
def storeKeys (st : SigStore) : List Nat := st.map Prod.fst

/-- Number of entries in the store. -/
def storeSize (st : SigStore) : Nat := st.length

/-- One audio event parsed from the eBPF trace (src/ebpf_processor.rs
`AudioEvent`). -/
structure AudioEvent where
  timestamp_ns : Nat
  src_ip : String
  src_port : Nat
  dst_ip : String
  dst_port : Nat
  interval_id : String
  position : Nat

/-- One latency measurement (src/ebpf_processor.rs `LatencyMeasurement`);
the `Duration` is kept in nanoseconds. -/
structure LatencyMeasurement where
  interval_id : String
  source_timestamp_ns : Nat
  relay_timestamp_ns : Nat
  latency_ns : Nat

/-- Processor state (src/ebpf_processor.rs `EbpfProcessor`). -/
structure EbpfProcessor where
  interval_first_seen : List (String × Nat)
  latency_measurements : List LatencyMeasurement

/-- Models `u64` subtraction: `none` is the underflow case, which panics in
a debug build (and wraps mod `2^64` in release, producing a huge value —
either way, not the claimed clamp to zero). -/
def u64_sub (a b : Nat) : Option Nat := if b ≤ a then some (a - b) else none

/-- Models `process_event` (src/ebpf_processor.rs lines 80-110): record the
first-seen source time for events with `src_port = 8000`; for events with
`dst_port = 8001` whose interval has a recorded source time, compute
`latency_ns = event.timestamp_ns - source_time` by unchecked `u64`
subtraction and append a measurement. `none` models the underflow panic. -/
def process_event (p : EbpfProcessor) (event : AudioEvent) : Option EbpfProcessor :=
  let p1 :=
    if event.src_port = 8000 ∧ (p.interval_first_seen.lookup event.interval_id) = none then
      { p with interval_first_seen :=
          p.interval_first_seen ++ [(event.interval_id, event.timestamp_ns)] }
    else p
  if event.dst_port = 8001 then
    match p1.interval_first_seen.lookup event.interval_id with
    | some source_time =>
        match u64_sub event.timestamp_ns source_time with
        | some latency_ns =>
            some { p1 with latency_measurements := p1.latency_measurements ++
              [{ interval_id := event.interval_id, source_timestamp_ns := source_time,
                 relay_timestamp_ns := event.timestamp_ns, latency_ns := latency_ns }] }
        | none => none
    | none => some p1
  else some p1

/-- Specification-side view of the window: all decoded 16-bit samples of the
buffered chunks, in order. -/
def windowSamples (buffer : List (List Nat)) : List Int :=
  (buffer.map decodeSamples).flatten

/-- Specification-side normalized squared RMS of a window: the mean squared
sample divided by `32768^2`. Over the reals this is the square of
"RMS over all samples in the window, divided by 32768" from the spec, so
comparisons of the RMS against a nonnegative threshold are comparisons of
this quantity against the squared threshold. -/
def window_rms_sq (buffer : List (List Nat)) : ℚ :=
  (((windowSamples buffer).map (fun s : Int => (s : ℚ) ^ 2)).sum /
    ((windowSamples buffer).length : ℚ)) / 32768 ^ 2

/-- Crossing count over a flat list of samples with the semantics the code
implements (zero resets the carried sign; see `zc_step`). -/
def crossings_over_samples (samples : List Int) : Nat :=
  (samples.foldl zc_step (0, 0)).2

/-- One step of the crossing count with the semantics the specification
describes: a zero sample has no sign and the previous nonzero sign is
carried forward unchanged. Written from the words of the spec, for
comparison with `zc_step`. -/
def zc_step_spec (st : Int × Nat) (sample : Int) : Int × Nat :=
  let sign : Int := if 0 < sample then 1 else if sample < 0 then -1 else 0
  if sign = 0 then st
  else (sign, if st.1 ≠ 0 ∧ sign ≠ st.1 then st.2 + 1 else st.2)

/-- Crossing count over a flat sample list with the carry-forward semantics
of the specification. -/
def spec_crossings (samples : List Int) : Nat :=
  (samples.foldl zc_step_spec (0, 0)).2

/-- Trivial external environment for concrete runs: the regex collaborator
never matches and decoding yields the empty string. -/
def trivEnv : Env :=
  { utf8_lossy := fun _ => "", regex_capture1 := fun _ _ => none }

/-- Concrete measurement configuration of the end-to-end scenario: Energy
gate, threshold 0.05, sampling rate 5, no id patterns. -/
def cfgA : MeasurementConfig :=
  { name := "m"
    enabled := true
    signature_rules :=
      { stream_filter := ""
        audio_criteria :=
          { min_duration_ms := 0
            energy_threshold := 1 / 20
            vad_mode := VadMode.Energy
            frequency_range := none }
        sampling_rate := 5 }
    metadata_extraction :=
      { header_offset := 0, id_patterns := [], protocol := ProtocolType.RTP }
    correlation :=
      { signature_ttl_seconds := 60, max_active_signatures := 100,
        grouping_key := "interval_id" } }

/-- A quiet chunk: one sample of value 0 (window RMS 0). -/
def quiet : List Nat := [0, 0]

/-- A loud chunk: one sample of value 16384 (bytes 0x00 0x40 little-endian). -/
def loud : List Nat := [0, 64]

/-- The ten payloads of the end-to-end scenario: packet 5 quiet, the rest
loud (packets 1-4 and 6-9 are skipped by sampling regardless of content). -/
def tenPackets : List (List Nat) :=
  [loud, loud, loud, loud, quiet, loud, loud, loud, loud, loud]

/-- The scenario run: a fresh detector over the ten payloads. -/
def runA : List (Option SignatureEvent) × SignatureDetector :=
  runPackets trivEnv 0 (SignatureDetector.new cfgA) tenPackets

/-- A concrete signature event used by the store theorems. -/
def evA : SignatureEvent :=
  { signature := { hash := [], duration_ms := 0 }
    metadata := { ids := [] }
    timestamp := 0
    measurement_name := "m" }

/-- Configuration for the metadata-extraction scenario: one binary id
pattern with `value_offset = 4` and `value_length = 8`. -/
def cfgC3 : MeasurementConfig :=
  { cfgA with metadata_extraction :=
      { header_offset := 0
        id_patterns :=
          [{ pattern := "\\x42\\x42", id_type := "interval_id",
             value_offset := 4, value_length := 8 }]
        protocol := ProtocolType.RTP } }

/-- A 30-byte payload whose pattern bytes `0x42 0x42` first occur at
index 10. -/
def payload30 : List Nat :=
  List.replicate 10 0 ++ [66, 66] ++ List.replicate 18 0

/-- A correlation configuration with `max_active_signatures = 1`. -/
def cfgTight : CorrelationConfig :=
  { signature_ttl_seconds := 60, max_active_signatures := 1,
    grouping_key := "interval_id" }

/-- Length of the decoded sample list: each chunk contributes
`chunk.len() / 2` samples, matching the count used by the energy gate. -/
theorem decodeSamples_length : ∀ c : List Nat, (decodeSamples c).length = c.length / 2
  | [] => rfl
  | [_] => by simp [decodeSamples]
  | _ :: _ :: rest => by
      simp [decodeSamples, decodeSamples_length rest]
      omega

/-- Unfolds the flat sample view of a window one chunk at a time. -/
theorem windowSamples_cons (c : List Nat) (rest : List (List Nat)) :
    windowSamples (c :: rest) = decodeSamples c ++ windowSamples rest := by
  simp [windowSamples]

/-- The flat sample view of a window has exactly `total_samples` elements. -/
theorem windowSamples_length : ∀ buffer : List (List Nat),
    (windowSamples buffer).length = total_samples buffer
  | [] => rfl
  | c :: rest => by
      rw [windowSamples_cons, List.length_append, decodeSamples_length,
        windowSamples_length rest]
      simp [total_samples]

/-- The chunk-wise energy sum of the gate equals the sum of squared samples
over the flat sample view of the window. -/
theorem energy_flat : ∀ buffer : List (List Nat),
    (buffer.map chunk_sq_energy).sum =
      ((windowSamples buffer).map (fun s : Int => (s : ℚ) ^ 2)).sum
  | [] => by simp [windowSamples]
  | c :: rest => by
      rw [List.map_cons, List.sum_cons, windowSamples_cons, List.map_append,
        List.sum_append, energy_flat rest, chunk_sq_energy]

/-- Removing an absent key is a no-op returning `none`. -/
theorem storeRemove_of_not_mem :
    ∀ (st : SigStore) (h : Nat), h ∉ storeKeys st → storeRemove st h = (none, st)
  | [], _, _ => rfl
  | (k, v) :: rest, h, hnm => by
      have hk : k ≠ h := by
        intro hkh
        exact hnm (by simp [storeKeys, hkh])
      have hrest : h ∉ storeKeys rest := by
        intro hmem
        exact hnm (by simp [storeKeys] at hmem ⊢; exact Or.inr hmem)
      simp [storeRemove, hk, storeRemove_of_not_mem rest h hrest]

/-- C1 (counterexample): with `max_active_signatures = 1`, two inserts of
distinct hashes leave the matcher store with 2 entries — the claimed bound
is violated and no entry was evicted. -/
theorem store_insert_violates_bound :
    storeSize (storeInsert (storeInsert [] 1 evA) 2 evA) = 2 ∧
    ¬ storeSize (storeInsert (storeInsert [] 1 evA) 2 evA) ≤ cfgTight.max_active_signatures := by
  constructor
  · rfl
  · decide

/-- C1 (amended): inserting into the matcher store adds or overwrites the
entry keyed by the hash and never evicts anything: the size stays the same
when the hash is already present and grows by one otherwise, with no bound
from `max_active_signatures` enforced. -/
theorem store_insert_size : ∀ (st : SigStore) (h : Nat) (ev : SignatureEvent),
    storeSize (storeInsert st h ev) =
      if h ∈ storeKeys st then storeSize st else storeSize st + 1
  | [], h, ev => by simp [storeInsert, storeSize, storeKeys]
  | (k, v) :: rest, h, ev => by
      by_cases hk : k = h
      · simp [storeInsert, hk, storeSize, storeKeys]
      · have ih := store_insert_size rest h ev
        by_cases hm : h ∈ storeKeys rest
        · simp only [storeInsert, if_neg hk, storeSize, List.length_cons,
            storeKeys, List.map_cons, List.mem_cons] at ih ⊢
          simp only [storeKeys] at ih hm
          simp [hm, Ne.symm hk, ih]
        · simp only [storeInsert, if_neg hk, storeSize, List.length_cons,
            storeKeys, List.map_cons, List.mem_cons] at ih ⊢
          simp only [storeKeys] at ih hm
          simp [hm, Ne.symm hk, ih]

/-- C6: fingerprint generation is deterministic — two detector states with
the same buffered window contents produce the same `AudioSignature`
(hash and duration alike), whatever their other state. -/
theorem generate_signature_deterministic (s1 s2 : SignatureDetector)
    (h : s1.audio_buffer = s2.audio_buffer) :
    generate_signature s1 = generate_signature s2 := by
  unfold generate_signature
  rw [h]

/-- Witness for C6 at a concrete pair of states with equal buffers. -/
theorem generate_signature_deterministic_witness :
    generate_signature { config := cfgA, audio_buffer := [quiet, loud], packet_counter := 0 } =
      generate_signature { config := cfgA, audio_buffer := [quiet, loud], packet_counter := 7 } :=
  generate_signature_deterministic _ _ rfl

/-- C8: a packet whose incremented counter does not land on the sampling
boundary is skipped entirely — `process_packet` returns nothing and the only
state change is the counter: the payload is not buffered and no metadata is
produced. (The nonzero-rate hypothesis excludes the `% 0` panic of Rust.) -/
theorem process_packet_skip_frame (env : Env) (now : Nat) (s : SignatureDetector)
    (payload : List Nat)
    (hrate : s.config.signature_rules.sampling_rate ≠ 0)
    (hskip : ((s.packet_counter + 1) % 4294967296) % s.config.signature_rules.sampling_rate ≠ 0) :
    process_packet env now s payload =
      (none, { s with packet_counter := (s.packet_counter + 1) % 4294967296 }) := by
  unfold process_packet
  simp [hskip]

/-- Witness for C8: a fresh detector with sampling rate 5 skips packet 1. -/
theorem process_packet_skip_frame_witness :
    process_packet trivEnv 0 (SignatureDetector.new cfgA) [] =
      (none, { SignatureDetector.new cfgA with
                 packet_counter := ((SignatureDetector.new cfgA).packet_counter + 1) % 4294967296 }) :=
  process_packet_skip_frame trivEnv 0 _ [] (by decide) (by decide)

/-- C9: at-most-once match — `DashMap::remove` is atomic per key, so two
concurrent removals of the same hash interleave as one of the two sequential
orders, which coincide by symmetry; for a store that holds the hash, the
first removal claims the entry, the second gets nothing, and the final store
holds no entry for that hash. -/
theorem try_match_at_most_once : ∀ (st : SigStore) (h : Nat),
    (storeKeys st).Nodup → h ∈ storeKeys st →
    (storeRemove st h).1.isSome = true ∧
    (storeRemove (storeRemove st h).2 h).1 = none ∧
    h ∉ storeKeys (storeRemove (storeRemove st h).2 h).2
  | [], h, _, hmem => by simp [storeKeys] at hmem
  | (k, v) :: rest, h, hnd, hmem => by
      have hnd' : (k :: storeKeys rest).Nodup := by
        simpa only [storeKeys, List.map_cons] using hnd
      by_cases hk : k = h
      · subst hk
        have hrest : k ∉ storeKeys rest := (List.nodup_cons.mp hnd').1
        simp [storeRemove, storeRemove_of_not_mem rest k hrest, hrest]
      · have hmem2 : h ∈ storeKeys rest := by
          rcases (by simpa [storeKeys] using hmem : h = k ∨ h ∈ storeKeys rest) with h1 | h2
          · exact absurd h1.symm hk
          · exact h2
        have hnd2 : (storeKeys rest).Nodup := (List.nodup_cons.mp hnd').2
        obtain ⟨ih1, ih2, ih3⟩ := try_match_at_most_once rest h hnd2 hmem2
        have hrw : storeRemove ((k, v) :: rest) h =
            ((storeRemove rest h).1, (k, v) :: (storeRemove rest h).2) := by
          simp [storeRemove, hk]
        have hrw2 : storeRemove ((k, v) :: (storeRemove rest h).2) h =
            ((storeRemove (storeRemove rest h).2 h).1,
              (k, v) :: (storeRemove (storeRemove rest h).2 h).2) := by
          simp [storeRemove, hk]
        rw [hrw]
        refine ⟨ih1, ?_, ?_⟩
        · rw [hrw2]
          exact ih2
        · rw [hrw2]
          simp only [storeKeys, List.map_cons, List.mem_cons]
          rintro (h1 | h2)
          · exact hk h1.symm
          · exact ih3 h2

/-- Witness for C9 at a one-entry store. -/
theorem try_match_at_most_once_witness :
    (storeRemove [(5, evA)] 5).1.isSome = true ∧
    (storeRemove (storeRemove [(5, evA)] 5).2 5).1 = none ∧
    5 ∉ storeKeys (storeRemove (storeRemove [(5, evA)] 5).2 5).2 :=
  try_match_at_most_once [(5, evA)] 5 (by decide) (by decide)

/-- C10: a window with no complete 16-bit sample (no chunks, or only chunks
shorter than 2 bytes) makes the Energy gate return not-worthy: the
zero-total-samples case is guarded before the division, so the gate is total
and yields `false` on empty input. -/
theorem energy_gate_empty_window_false (t : ℚ) (buffer : List (List Nat))
    (h : total_samples buffer = 0) :
    check_energy_threshold t buffer = false := by
  unfold check_energy_threshold
  simp [h]

/-- Witness for C10: a single 1-byte chunk holds no complete sample. -/
theorem energy_gate_empty_window_false_witness :
    total_samples [[7]] = 0 ∧ check_energy_threshold (1/2) [[7]] = false :=
  ⟨by decide, energy_gate_empty_window_false (1/2) [[7]] (by decide)⟩

/-- C2 (counterexample): a window whose normalized RMS equals the threshold
exactly is not worthy — the single sample 16384 gives RMS `16384/32768 = 1/2`
(stated on squares: the squared normalized RMS is at least `(1/2)^2`), yet
the Energy gate with threshold `1/2` returns `false`, refuting the claimed
inclusive boundary. -/
theorem energy_gate_boundary_not_worthy :
    (1 / 2 : ℚ) ^ 2 ≤ window_rms_sq [[0, 64]] ∧
    check_energy_threshold (1 / 2) [[0, 64]] = false := by
  constructor
  · norm_num [window_rms_sq, windowSamples, decodeSamples, toI16]
  · norm_num [check_energy_threshold, total_samples, chunk_sq_energy,
      decodeSamples, toI16]

/-- C2 (amended): for every nonnegative threshold the Energy gate is worthy
iff the window holds at least one complete sample and the normalized RMS
strictly exceeds the threshold (stated on squares, which is equivalent over
the reals for nonnegative quantities); the boundary RMS = threshold is not
worthy. -/
theorem energy_gate_iff_strict (t : ℚ) (buffer : List (List Nat)) (ht : 0 ≤ t) :
    check_energy_threshold t buffer = true ↔
      windowSamples buffer ≠ [] ∧ t ^ 2 < window_rms_sq buffer := by
  unfold check_energy_threshold window_rms_sq
  by_cases h0 : total_samples buffer = 0
  · have hnil : windowSamples buffer = [] := by
      have hl := windowSamples_length buffer
      rw [h0] at hl
      exact List.length_eq_zero.mp hl
    simp [h0, hnil]
  · have hne : windowSamples buffer ≠ [] := by
      intro hemp
      have hl := windowSamples_length buffer
      rw [hemp] at hl
      exact h0 (by simpa using hl.symm)
    have hlen : ((windowSamples buffer).length : ℚ) = (total_samples buffer : ℚ) := by
      exact_mod_cast congrArg Nat.cast (windowSamples_length buffer)
    rw [if_neg h0]
    simp only [decide_eq_true_eq, hne, ne_eq, not_false_iff, true_and]
    rw [energy_flat buffer, hlen]
    have h32 : (0 : ℚ) < 32768 ^ 2 := by norm_num
    constructor
    · rintro (hlt | hlt)
      · exact absurd hlt (not_lt.mpr ht)
      · rw [lt_div_iff₀ h32]
        calc t ^ 2 * 32768 ^ 2 = (t * 32768) ^ 2 := by ring
        _ < _ := hlt
    · intro hlt
      right
      rw [lt_div_iff₀ h32] at hlt
      calc (t * 32768) ^ 2 = t ^ 2 * 32768 ^ 2 := by ring
      _ < _ := hlt

/-- Witness for the amended C2 at threshold 0.05 and a one-sample window. -/
theorem energy_gate_iff_strict_witness :
    (0 : ℚ) ≤ 1 / 20 ∧
      (check_energy_threshold (1 / 20) [[0, 64]] = true ↔
        windowSamples [[0, 64]] ≠ [] ∧ (1 / 20 : ℚ) ^ 2 < window_rms_sq [[0, 64]]) :=
  ⟨by norm_num, energy_gate_iff_strict (1 / 20) [[0, 64]] (by norm_num)⟩

/-- C4 (counterexample): on a window of 52 chunks each decoding to the
samples `[+1, 0]`, the gate fires (the code counts a crossing at every
nonzero-to-zero transition, 52 of them), while under the claimed
carry-forward semantics the crossing count is 0, not above 50 — so the gate
is not the claimed function of the carry-forward count. -/
theorem zc_gate_diverges_from_carry_forward :
    check_zero_crossing_rate (List.replicate 52 [1, 0, 0, 0]) = true ∧
    ¬ 50 < spec_crossings (windowSamples (List.replicate 52 [1, 0, 0, 0])) := by
  constructor
  · decide
  · decide

/-- C4 (amended): the ZeroCrossing gate counts sign changes between
consecutive samples across the whole window where a zero sample resets the
carried sign (a nonzero sample followed by zero counts one crossing, and no
crossing is counted between a zero and the following nonzero sample), and it
returns worthy iff that count exceeds 50. -/
theorem zc_gate_iff_code_count (buffer : List (List Nat)) :
    check_zero_crossing_rate buffer = true ↔
      50 < crossings_over_samples (windowSamples buffer) := by
  unfold check_zero_crossing_rate crossings_over_samples windowSamples crossings_count
  rw [List.foldl_flatten, List.foldl_map]
  simp

/-- C3: evaluated at the claimed scenario — a 30-byte payload whose pattern
bytes occur at index 10, with `value_offset = 4` and `value_length = 8` —
metadata extraction produces no id at all, for every external environment:
`find_bytes` is a TODO stub that always returns `None`, so the binary branch
never matches and nothing is ever read from `payload[14..22]`. -/
theorem extract_metadata_binary_pattern_yields_nothing (env : Env) :
    (extract_metadata env cfgC3 payload30).ids = [] := by
  simp [extract_metadata, cfgC3, cfgA, payload30, find_bytes]

/-- C5: evaluated at the failing input — an interval first seen at the
source with timestamp 10 ns, then observed at the relay with timestamp 5 ns
(clock skew): the latency computation `timestamp_ns - source_time` underflows
(`none` = the debug-build panic; a release build wraps to a huge value). The
code neither clamps the negative latency to zero nor flags it. -/
theorem process_event_negative_latency_underflow :
    ((process_event { interval_first_seen := [], latency_measurements := [] }
        { timestamp_ns := 10, src_ip := "a", src_port := 8000, dst_ip := "b",
          dst_port := 0, interval_id := "iv", position := 0 }).bind
      (fun p => process_event p
        { timestamp_ns := 5, src_ip := "b", src_port := 0, dst_ip := "c",
          dst_port := 8001, interval_id := "iv", position := 1 })) = none ∧
    (process_event { interval_first_seen := [], latency_measurements := [] }
        { timestamp_ns := 10, src_ip := "a", src_port := 8000, dst_ip := "b",
          dst_port := 0, interval_id := "iv", position := 0 }).isSome = true := by
  constructor
  · rfl
  · rfl

/-- Evaluation helper for the scenario: packet 5, with the quiet window of
one chunk, is below the 0.05 threshold. -/
theorem gate_quiet : check_energy_threshold (1 / 20) [[0, 0]] = false := by
  norm_num [check_energy_threshold, total_samples, chunk_sq_energy,
    decodeSamples, toI16]

/-- Evaluation helper for the scenario: packet 10, with the window holding
the quiet and the loud chunk, is above the 0.05 threshold. -/
theorem gate_quiet_loud : check_energy_threshold (1 / 20) [[0, 0], [0, 64]] = true := by
  norm_num [check_energy_threshold, total_samples, chunk_sq_energy,
    decodeSamples, toI16]

/-- Full evaluation of the scenario run: packets 1-4 and 6-9 are skipped by
the sampling counter, packet 5 is analyzed but not worthy, and packet 10
emits the single event, whose window holds exactly the two sampled chunks. -/
theorem runA_eval :
    runA = ([none, none, none, none, none, none, none, none, none,
        some { signature := { hash := [chunk_energy quiet, chunk_energy loud],
                              duration_ms := 40 }
               metadata := { ids := [] }
               timestamp := 0
               measurement_name := "m" }],
      { config := cfgA, audio_buffer := [quiet, loud], packet_counter := 10 }) := by
  have h1 : process_packet trivEnv 0 (SignatureDetector.new cfgA) loud =
      (none, { config := cfgA, audio_buffer := [], packet_counter := 1 }) := by
    norm_num [process_packet, SignatureDetector.new, cfgA]
  have h2 : process_packet trivEnv 0
      { config := cfgA, audio_buffer := [], packet_counter := 1 } loud =
      (none, { config := cfgA, audio_buffer := [], packet_counter := 2 }) := by
    norm_num [process_packet, cfgA]
  have h3 : process_packet trivEnv 0
      { config := cfgA, audio_buffer := [], packet_counter := 2 } loud =
      (none, { config := cfgA, audio_buffer := [], packet_counter := 3 }) := by
    norm_num [process_packet, cfgA]
  have h4 : process_packet trivEnv 0
      { config := cfgA, audio_buffer := [], packet_counter := 3 } loud =
      (none, { config := cfgA, audio_buffer := [], packet_counter := 4 }) := by
    norm_num [process_packet, cfgA]
  have h5 : process_packet trivEnv 0
      { config := cfgA, audio_buffer := [], packet_counter := 4 } quiet =
      (none, { config := cfgA, audio_buffer := [quiet], packet_counter := 5 }) := by
    norm_num [process_packet, extract_metadata, is_signature_worthy, cfgA,
      gate_quiet, quiet, loud]
  have h6 : process_packet trivEnv 0
      { config := cfgA, audio_buffer := [quiet], packet_counter := 5 } loud =
      (none, { config := cfgA, audio_buffer := [quiet], packet_counter := 6 }) := by
    norm_num [process_packet, cfgA]
  have h7 : process_packet trivEnv 0
      { config := cfgA, audio_buffer := [quiet], packet_counter := 6 } loud =
      (none, { config := cfgA, audio_buffer := [quiet], packet_counter := 7 }) := by
    norm_num [process_packet, cfgA]
  have h8 : process_packet trivEnv 0
      { config := cfgA, audio_buffer := [quiet], packet_counter := 7 } loud =
      (none, { config := cfgA, audio_buffer := [quiet], packet_counter := 8 }) := by
    norm_num [process_packet, cfgA]
  have h9 : process_packet trivEnv 0
      { config := cfgA, audio_buffer := [quiet], packet_counter := 8 } loud =
      (none, { config := cfgA, audio_buffer := [quiet], packet_counter := 9 }) := by
    norm_num [process_packet, cfgA]
  have h10 : process_packet trivEnv 0
      { config := cfgA, audio_buffer := [quiet], packet_counter := 9 } loud =
      (some { signature := { hash := [chunk_energy quiet, chunk_energy loud],
                             duration_ms := 40 }
              metadata := { ids := [] }
              timestamp := 0
              measurement_name := "m" },
        { config := cfgA, audio_buffer := [quiet, loud], packet_counter := 10 }) := by
    norm_num [process_packet, extract_metadata, is_signature_worthy,
      generate_signature, cfgA, gate_quiet_loud, quiet, loud]
  simp only [runA, tenPackets, runPackets, h1, h2, h3, h4, h5, h6, h7, h8, h9, h10]

/-- C7 (counterexample): in the end-to-end scenario (fresh detector,
`sampling_rate = 5`, quiet packet 5, loud packet 10) the event emitted at
packet 10 has `duration_ms = 40` — the window holds only the two sampled
chunks at 20 ms each — not the claimed 200. -/
theorem scenario_duration_not_200 :
    ((runA.1.getD 9 none).map (fun e => e.signature.duration_ms)) = some 40 ∧
    ¬ ((runA.1.getD 9 none).map (fun e => e.signature.duration_ms)) = some 200 := by
  rw [runA_eval]
  constructor
  · rfl
  · simp

/-- C7 (amended): with `sampling_rate = 5` a fresh detector over packets
1..10 analyzes only packets 5 and 10 (the final window holds exactly those
two chunks); packet 5, whose window RMS is below the threshold, emits
nothing, and packet 10, whose window RMS is above it, emits the only event,
with `duration_ms = 2 * 20 = 40`. -/
theorem scenario_events_and_window :
    runA.1.map (fun o => o.map (fun e => e.signature.duration_ms)) =
      [none, none, none, none, none, none, none, none, none, some 40] ∧
    runA.2.audio_buffer = [quiet, loud] := by
  rw [runA_eval]
  constructor
  · rfl
  · rfl
